import Mathlib

/-!
Shallow embedding of the three analysis scripts of the
`visualization-atmospheric` repository, together with proofs checking the
natural-language specification against the code.

Namespaces:
* `ThetaE`   — model of `calc_WRF_ThetaE_Analysis.py`
  (`process_multiple_levels_iterative`): level filtering, the pre-allocated
  NaN-sentinel output arrays (modelled as `Option`-valued slots, `none` being
  the NaN sentinel), the member × time × level triple loop with per-slice
  try/except, dataset assembly, and the final serialization try/except.
* `Duration` — model of `ana_duration_hours.py`: the duration frequency
  table (`value_counts().sort_index()`), the one-sample t-test
  (`scipy.stats.ttest_1samp`), and the seeded jitter scatter.
* `Fronto`   — model of `frontogenesis_tendency_comparison.py`: grids,
  finite-difference derivative operators (MetPy `first_derivative` scheme:
  centered in the interior, one-sided second-order at the edges),
  divergence, vorticity, the gradient-magnitude tendency built from
  boolean-mask time selection, and the exact `.sel` time lookup.

Machine floats are modelled by exact arithmetic (`ℚ` where executability
matters, `ℝ` where square roots and integrals are required); NaN sentinels
are modelled by `Option.none`; Python exceptions by `Except`.
-/

namespace ThetaE

/-- An index triple `(m_idx, t_idx, l_idx)` of the triple loop. -/
abbrev Combo : Type := Nat × Nat × Nat

/-- Line 63: `missing_levels = [level for level in LEVELS if level not in available_levels]`. -/
def missingLevels (req avail : List Int) : List Int :=
  req.filter (fun l => decide (l ∉ avail))

/-- Lines 63–66: requested levels absent from the input are dropped
(with a warning) and only the remaining ones are processed. -/
def effectiveLevels (req avail : List Int) : List Int :=
  if (missingLevels req avail).isEmpty then req
  else req.filter (fun l => decide (l ∈ avail))

/-- The six per-slice computed values (lines 116–126): `eth` slice, the two
gradient components, the gradient magnitude, divergence and vorticity. -/
structure SliceVals (α : Type) where
  eth : α
  dtedx : α
  dtedy : α
  absthe : α
  divg : α
  vort : α

/-- The six output arrays (lines 88–95), each a map from an index triple to
an optional value; `none` models the NaN missing-value sentinel. -/
structure Outputs (α : Type) where
  eth : Combo → Option α
  dtedx : Combo → Option α
  dtedy : Combo → Option α
  absthe : Combo → Option α
  divg : Combo → Option α
  vort : Combo → Option α

/-- Lines 88–95: all six arrays are pre-allocated filled with NaN (`none`). -/
def initOutputs (α : Type) : Outputs α :=
  ⟨fun _ => none, fun _ => none, fun _ => none, fun _ => none,
   fun _ => none, fun _ => none⟩

/-- Pointwise array store: `arr[m_idx, t_idx, l_idx] = a`. -/
def updAt {α : Type} (f : Combo → Option α) (c : Combo) (a : α) : Combo → Option α :=
  fun x => if x = c then some a else f x

/-- Lines 129–134: the six assignments into the matching slot. -/
def writeSlot {α : Type} (o : Outputs α) (c : Combo) (v : SliceVals α) : Outputs α :=
  { eth := updAt o.eth c v.eth
    dtedx := updAt o.dtedx c v.dtedx
    dtedy := updAt o.dtedy c v.dtedy
    absthe := updAt o.absthe c v.absthe
    divg := updAt o.divg c v.divg
    vort := updAt o.vort c v.vort }

/-- Lines 114–138: one iteration of the loop body. The whole per-slice
computation (selection and derived fields, lines 116–126) runs before any
store; on success the six slots are written, on an exception the body logs
and `continue`s, leaving the arrays untouched. -/
def stepCombo {α E : Type} (compute : Combo → Except E (SliceVals α))
    (o : Outputs α) (c : Combo) : Outputs α :=
  match compute c with
  | Except.ok v => writeSlot o c v
  | Except.error _ => o

/-- Lines 104–138: the triple loop, folded over the iterated combinations,
starting from the NaN-filled arrays. -/
def runLoop {α E : Type} (compute : Combo → Except E (SliceVals α))
    (combos : List Combo) : Outputs α :=
  combos.foldl (stepCombo compute) (initOutputs α)

/-- Lines 104–110: the Cartesian product member × time × level, in loop order. -/
def comboList (nm nt nl : Nat) : List Combo :=
  (List.range nm).flatMap (fun m =>
    (List.range nt).flatMap (fun t =>
      (List.range nl).map (fun l => (m, t, l))))

/-- Line 97: `total_iterations = n_members * n_times * n_levels`. -/
def totalIterations (nm nt : Nat) (req avail : List Int) : Nat :=
  nm * nt * (effectiveLevels req avail).length

/-- The assembled output dataset (lines 156–197): the `level` coordinate,
the dimension sizes of the six 5-D variables, and the data arrays. -/
structure OutDataset (α : Type) where
  levelCoord : List Int
  memberDim : Nat
  timeDim : Nat
  levelDim : Nat
  arrays : Outputs α

/-- Lines 156–197: dataset assembly from the filtered level list and the
arrays produced by the triple loop. -/
def mkDataset (nm nt : Nat) (req avail : List Int)
    (compute : Combo → Except String (SliceVals Rat)) : OutDataset Rat :=
  { levelCoord := effectiveLevels req avail
    memberDim := nm
    timeDim := nt
    levelDim := (effectiveLevels req avail).length
    arrays := runLoop compute (comboList nm nt (effectiveLevels req avail).length) }

/-- Lines 155–213: the output stage. The dataset is assembled and handed to
the serializer (`to_netcdf`, modelled by `ser`); on failure the error is
logged (`print`) and the same exception re-raised (`raise`), on success a
success message is logged. Returns the console log and the outcome. -/
def processRun (nm nt : Nat) (req avail : List Int)
    (compute : Combo → Except String (SliceVals Rat))
    (ser : OutDataset Rat → Except String Unit) :
    List String × Except String (OutDataset Rat) :=
  match ser (mkDataset nm nt req avail compute) with
  | Except.ok _ => (["File written successfully"],
      Except.ok (mkDataset nm nt req avail compute))
  | Except.error e => (["Error writing output: " ++ e], Except.error e)

/-- Process exit status of a Python run ending in the given outcome: an
uncaught exception terminates with a non-zero exit. -/
def exitCode {α : Type} : Except String α → Nat
  | Except.ok _ => 0
  | Except.error _ => 1

/-- A sample per-slice computation that always succeeds, used to exercise
the loop on concrete inputs. -/
def demoCompute : Combo → Except String (SliceVals Rat) :=
  fun _ => Except.ok ⟨1, 2, 3, 4, 5, 6⟩

/-- A serializer that always fails, modelling a failing `to_netcdf` call. -/
def serFail : OutDataset Rat → Except String Unit :=
  fun _ => Except.error ("disk full")

/-- A serializer that always succeeds, modelling a normal `to_netcdf` call. -/
def serOk : OutDataset Rat → Except String Unit :=
  fun _ => Except.ok ()

end ThetaE

namespace Duration

/-- The index of `value_counts().sort_index()` (line 50): the distinct
duration values, in ascending order. -/
def distinctSorted (xs : List Rat) : List Rat :=
  List.insertionSort (· ≤ ·) xs.dedup

/-- Line 50: `duration_counts = df['duration_hours'].value_counts().sort_index()`,
grouping rows by exact equality of `duration_hours`. -/
def durationCounts (xs : List Rat) : List (Rat × Nat) :=
  (distinctSorted xs).map (fun v => (v, xs.count v))

/-- Line 52: `percentage = (count / len(df)) * 100`, one entry per table row. -/
def durationPercentages (xs : List Rat) : List Rat :=
  (durationCounts xs).map (fun p => ((p.2 : Rat) / (xs.length : Rat)) * 100)

/-- Sample mean of a list of values. -/
noncomputable def mean (xs : List ℝ) : ℝ := xs.sum / (xs.length : ℝ)

/-- Unbiased sample variance (`ddof = 1`), as used by `scipy.stats.ttest_1samp`. -/
noncomputable def sampleVar (xs : List ℝ) : ℝ :=
  ((xs.map (fun x => (x - mean xs) ^ 2)).sum) / ((xs.length : ℝ) - 1)

/-- Line 60: the one-sample t statistic of `scipy.stats.ttest_1samp`:
`(mean - popmean) / (std(ddof=1) / sqrt(n))`. -/
noncomputable def tStat (xs : List ℝ) (popmean : ℝ) : ℝ :=
  (mean xs - popmean) / (Real.sqrt (sampleVar xs) / Real.sqrt (xs.length : ℝ))

/-- Density of the Student t distribution with `df` degrees of freedom. -/
noncomputable def tDensity (df x : ℝ) : ℝ :=
  Real.Gamma ((df + 1) / 2) / (Real.sqrt (df * Real.pi) * Real.Gamma (df / 2)) *
    (1 + x ^ 2 / df) ^ (-((df + 1) / 2))

/-- Two-sided p-value of the one-sample t-test: twice the upper-tail
probability of the Student t distribution beyond `|t|`. -/
noncomputable def tPValue (df t : ℝ) : ℝ :=
  2 * ∫ x in Set.Ioi |t|, tDensity df x

/-- Lines 93–95 and 104: after `np.random.seed(42)`, the jittered
x-positions are the first `len(df)` draws of the seeded generator (a pure
function `rng` of seed and count), and each scatter point pairs a jittered
x with the exact `duration_hours` value of its row. -/
def scatterPoints (rng : Nat → Nat → List Rat) (durations : List Rat) :
    List (Rat × Rat) :=
  (rng 42 durations.length).zip durations

/-- One run of the plotting section of the script. `entropy` models
whatever ambient randomness distinguishes two runs; the script never
consults it because the seed is the fixed constant 42. -/
def runScatter (rng : Nat → Nat → List Rat) (_entropy : Nat)
    (durations : List Rat) : List (Rat × Rat) :=
  scatterPoints rng durations

/-- A sample deterministic generator: `n` draws for seed `s`. -/
def demoRng : Nat → Nat → List Rat :=
  fun s n => List.replicate n ((s : Rat) / 100)

end Duration

namespace Fronto

/-- A 2-D gridded field with its shape. -/
structure Grid (α : Type) where
  ny : Nat
  nx : Nat
  val : Nat → Nat → α

/-- One-dimensional finite-difference first derivative of a sampled line of
`n` points with uniform spacing `d`, MetPy `first_derivative` scheme:
centered difference in the interior, one-sided second-order three-point
stencils at the two edges. -/
def derivP {α : Type} [Field α] (n : Nat) (f : Nat → α) (d : α) (i : Nat) : α :=
  if i = 0 then ((-3) * f 0 + 4 * f 1 - f 2) / (2 * d)
  else if i = n - 1 then (3 * f i - 4 * f (i - 1) + f (i - 2)) / (2 * d)
  else (f (i + 1) - f (i - 1)) / (2 * d)

/-- Derivative along the x (last) axis, spacing `dx`. -/
def xDeriv {α : Type} [Field α] (g : Grid α) (dx : α) : Grid α :=
  ⟨g.ny, g.nx, fun i j => derivP g.nx (fun k => g.val i k) dx j⟩

/-- Derivative along the y axis, spacing `dy`. -/
def yDeriv {α : Type} [Field α] (g : Grid α) (dy : α) : Grid α :=
  ⟨g.ny, g.nx, fun i j => derivP g.ny (fun k => g.val k j) dy i⟩

/-- Pointwise negation of a field (`-u`). -/
def gneg {α : Type} [Neg α] (g : Grid α) : Grid α :=
  ⟨g.ny, g.nx, fun i j => -(g.val i j)⟩

/-- MetPy `divergence`: `du/dx + dv/dy` (used at line 125 of the theta-e
script on each wind slice). -/
def divergence {α : Type} [Field α] (u v : Grid α) (dx dy : α) : Grid α :=
  ⟨u.ny, u.nx, fun i j => (xDeriv u dx).val i j + (yDeriv v dy).val i j⟩

/-- MetPy `vorticity`: `dv/dx - du/dy` (used at line 126 of the theta-e
script on each wind slice). -/
def vorticity {α : Type} [Field α] (u v : Grid α) (dx dy : α) : Grid α :=
  ⟨u.ny, u.nx, fun i j => (xDeriv v dx).val i j - (yDeriv u dy).val i j⟩

/-- Lines 131–136: magnitude of the spatial gradient of potential
temperature, `sqrt((dθ/dx)² + (dθ/dy)²)`. -/
noncomputable def gradientMagnitude (g : Grid ℝ) (dx dy : ℝ) : Grid ℝ :=
  ⟨g.ny, g.nx, fun i j =>
    Real.sqrt ((xDeriv g dx).val i j ^ 2 + (yDeriv g dy).val i j ^ 2)⟩

/-- Boolean-mask time selection, `field[time == t]` (line 148): keeps the
slices whose time tag equals `t`; an absent time yields an empty selection,
never an error. -/
def maskSel {β : Type} (field : List (Int × β)) (t : Int) : List β :=
  (field.filter (fun p => decide (p.1 = t))).map Prod.snd

/-- Exact label lookup, `.sel(time=t)` (line 167): returns the slice at the
exact time `t`, or a KeyError when that time is absent. -/
def selExact {β : Type} (field : List (Int × β)) (t : Int) : Except Unit β :=
  match field.find? (fun p => decide (p.1 = t)) with
  | some p => Except.ok p.2
  | none => Except.error ()

/-- Pointwise difference of two grids. -/
noncomputable def gsub (a b : Grid ℝ) : Grid ℝ :=
  ⟨a.ny, a.nx, fun i j => a.val i j - b.val i j⟩

/-- Pointwise division of a grid by a scalar. -/
noncomputable def gdivC (a : Grid ℝ) (c : ℝ) : Grid ℝ :=
  ⟨a.ny, a.nx, fun i j => a.val i j / c⟩

/-- Lines 131–136: the time series of gradient magnitudes, one grid per
time step, keeping the time tags. -/
noncomputable def magnitudeSeries (field : List (Int × Grid ℝ)) (dx dy : ℝ) :
    List (Int × Grid ℝ) :=
  field.map (fun p => (p.1, gradientMagnitude p.2 dx dy))

/-- Line 151: `(time_after - time_before)` in seconds (times are modelled
as integer seconds; one hour is 3600 s). -/
def timeInterval (target : Int) : Int := (target + 3600) - (target - 3600)

/-- Line 148: `gradient_magnitude[time == t+1h] - gradient_magnitude[time == t-1h]`
via boolean masks; with singleton selections this is the sliced difference,
with an empty selection on either side the result is empty. -/
noncomputable def gradientChangeList (field : List (Int × Grid ℝ))
    (target : Int) (dx dy : ℝ) : List (Grid ℝ) :=
  List.zipWith gsub (maskSel (magnitudeSeries field dx dy) (target + 3600))
    (maskSel (magnitudeSeries field dx dy) (target - 3600))

/-- Line 154: `gradient_tendency = gradient_change / time_interval`
(the `.squeeze()` drops the singleton time axis; here the list plays the
role of that axis). -/
noncomputable def gradientTendency (field : List (Int × Grid ℝ))
    (target : Int) (dx dy : ℝ) : List (Grid ℝ) :=
  (gradientChangeList field target dx dy).map
    (fun g => gdivC g ((timeInterval target : Int) : ℝ))

/-- Failure modes of the comparison script that can occur after loading:
a KeyError from the exact time lookup (line 167), or the ValueError that
`np.nanmin` raises on a zero-size reduction (line 175). -/
inductive RunError : Type where
  | lookupError : RunError
  | emptyArrayError : RunError
  deriving DecidableEq

/-- Lines 131–175 and onwards, in program order: the mask-based tendency is
computed (never raising on absent times), then the target slice is looked
up exactly (raising KeyError when absent), then the statistics reduction
runs (raising on an empty tendency array); only if all succeed does the
run reach plotting and write the image. -/
noncomputable def scriptRun (field : List (Int × Grid ℝ)) (target : Int)
    (dx dy : ℝ) : Except RunError (List (Grid ℝ) × Grid ℝ) :=
  match selExact field target with
  | Except.error _ => Except.error RunError.lookupError
  | Except.ok g =>
    match gradientTendency field target dx dy with
    | [] => Except.error RunError.emptyArrayError
    | t1 :: rest => Except.ok (t1 :: rest, g)

/-- Whether the run reaches `plt.savefig` and writes the image file. -/
noncomputable def imageWritten (field : List (Int × Grid ℝ)) (target : Int)
    (dx dy : ℝ) : Bool :=
  (scriptRun field target dx dy).isOk

/-- A small concrete grid used on concrete inputs. -/
noncomputable def gA : Grid ℝ := ⟨2, 2, fun i j => (i : ℝ) + (j : ℝ)⟩

/-- A second concrete grid used on concrete inputs. -/
noncomputable def gB : Grid ℝ := ⟨2, 2, fun i j => (i : ℝ) * (j : ℝ) + 1⟩

/-- A concrete time series holding the times `-3600` and `0` (seconds):
for target time `0`, the hour-before slice and the target slice exist but
the hour-after slice (`3600`) is absent. -/
noncomputable def fieldC3 : List (Int × Grid ℝ) := [((-3600 : Int), gB), ((0 : Int), gA)]

/-- A concrete time series holding only the time `0`. -/
noncomputable def fieldC3W : List (Int × Grid ℝ) := [((0 : Int), gA)]

/-- A concrete time series holding the times `-3600` and `3600`: both the
hour-before and hour-after slices of target time `0`. -/
noncomputable def fieldC5 : List (Int × Grid ℝ) := [((-3600 : Int), gB), ((3600 : Int), gA)]

end Fronto

namespace ThetaE

theorem effectiveLevels_eq_filter (req avail : List Int) :
    effectiveLevels req avail = req.filter (fun l => decide (l ∈ avail)) := by
  unfold effectiveLevels
  by_cases h : (missingLevels req avail).isEmpty
  · rw [if_pos h]
    symm
    rw [List.filter_eq_self]
    intro a ha
    unfold missingLevels at h
    rw [List.isEmpty_iff, List.filter_eq_nil_iff] at h
    have := h a ha
    simpa using this
  · rw [if_neg h]

/-- C2: for every requested level list and every available-level set, the
effective processed-level list is exactly the requested levels present in
the input, in the original requested order (a sublist of the request); in
particular for available levels `[875, 850]` and request `[875, 850, 825]`
exactly `[875, 850]` is processed, the missing-level warning names exactly
`825`, and the output dataset's `level` coordinate is exactly `[875, 850]`. -/
theorem c2_effective_levels (req avail : List Int) :
    effectiveLevels req avail = req.filter (fun l => decide (l ∈ avail)) ∧
    (∀ l, l ∈ effectiveLevels req avail ↔ l ∈ req ∧ l ∈ avail) ∧
    (effectiveLevels req avail).Sublist req ∧
    effectiveLevels [875, 850, 825] [875, 850] = [875, 850] ∧
    missingLevels [875, 850, 825] [875, 850] = [825] ∧
    (∀ nm nt compute,
      (mkDataset nm nt [875, 850, 825] [875, 850] compute).levelCoord = [875, 850]) := by
  refine ⟨effectiveLevels_eq_filter req avail, ?_, ?_, by decide, by decide, ?_⟩
  · intro l
    rw [effectiveLevels_eq_filter, List.mem_filter]
    simp
  · rw [effectiveLevels_eq_filter]
    exact List.filter_sublist req
  · intro nm nt compute
    show effectiveLevels [875, 850, 825] [875, 850] = [875, 850]
    decide

theorem foldl_proj_frame {α E : Type} (compute : Combo → Except E (SliceVals α))
    (proj : Outputs α → Combo → Option α) (sel : SliceVals α → α)
    (hproj : ∀ o c v, proj (writeSlot o c v) = updAt (proj o) c (sel v))
    (c : Combo) :
    ∀ (combos : List Combo) (o : Outputs α), c ∉ combos →
      proj (combos.foldl (stepCombo compute) o) c = proj o c := by
  intro combos
  induction combos with
  | nil => intro o _; rfl
  | cons hd tl ih =>
    intro o hm
    rw [List.foldl_cons]
    rw [ih _ (fun h => hm (List.mem_cons_of_mem hd h))]
    have hne : c ≠ hd := fun h => hm (h ▸ List.mem_cons_self hd tl)
    cases hcmp : compute hd with
    | error e => simp [stepCombo, hcmp]
    | ok v =>
      simp only [stepCombo, hcmp]
      rw [hproj]
      unfold updAt
      simp [hne]

theorem foldl_proj_of_error {α E : Type} (compute : Combo → Except E (SliceVals α))
    (proj : Outputs α → Combo → Option α) (sel : SliceVals α → α)
    (hproj : ∀ o c v, proj (writeSlot o c v) = updAt (proj o) c (sel v))
    (c : Combo) (e : E) (hc : compute c = Except.error e) :
    ∀ (combos : List Combo) (o : Outputs α),
      proj (combos.foldl (stepCombo compute) o) c = proj o c := by
  intro combos
  induction combos with
  | nil => intro o; rfl
  | cons hd tl ih =>
    intro o
    rw [List.foldl_cons, ih]
    cases hcmp : compute hd with
    | error e2 => simp [stepCombo, hcmp]
    | ok v =>
      simp only [stepCombo, hcmp]
      rw [hproj]
      unfold updAt
      by_cases hx : c = hd
      · exfalso
        rw [hx, hcmp] at hc
        exact Except.noConfusion hc
      · simp [hx]

theorem foldl_proj_of_ok {α E : Type} (compute : Combo → Except E (SliceVals α))
    (proj : Outputs α → Combo → Option α) (sel : SliceVals α → α)
    (hproj : ∀ o c v, proj (writeSlot o c v) = updAt (proj o) c (sel v))
    (c : Combo) (v : SliceVals α) (hc : compute c = Except.ok v) :
    ∀ (combos : List Combo) (o : Outputs α), c ∈ combos →
      proj (combos.foldl (stepCombo compute) o) c = some (sel v) := by
  intro combos
  induction combos with
  | nil => intro o h; exact absurd h (List.not_mem_nil c)
  | cons hd tl ih =>
    intro o hm
    rw [List.foldl_cons]
    by_cases ht : c ∈ tl
    · exact ih _ ht
    · have hchd : c = hd := by
        rcases List.mem_cons.mp hm with h | h
        · exact h
        · exact absurd h ht
      subst hchd
      rw [foldl_proj_frame compute proj sel hproj c tl _ ht]
      simp only [stepCombo, hc]
      rw [hproj]
      unfold updAt
      simp

/-- C1: the six output arrays start out filled with the missing-value
sentinel (`none`, modelling NaN), and for every `(member, time, level)`
combination of the iterated Cartesian product: if the per-slice computation
succeeds, the corresponding slot of all six arrays holds the computed
(non-sentinel) value, and if it throws, all six slots for that combination
remain the sentinel — there is no partial write. -/
theorem c1_sentinel_atomicity {α E : Type} (nm nt nl : Nat)
    (compute : Combo → Except E (SliceVals α)) (c : Combo)
    (hc : c ∈ comboList nm nt nl) :
    (∀ x, (initOutputs α).eth x = none ∧ (initOutputs α).dtedx x = none ∧
      (initOutputs α).dtedy x = none ∧ (initOutputs α).absthe x = none ∧
      (initOutputs α).divg x = none ∧ (initOutputs α).vort x = none) ∧
    (∀ v, compute c = Except.ok v →
      (runLoop compute (comboList nm nt nl)).eth c = some v.eth ∧
      (runLoop compute (comboList nm nt nl)).dtedx c = some v.dtedx ∧
      (runLoop compute (comboList nm nt nl)).dtedy c = some v.dtedy ∧
      (runLoop compute (comboList nm nt nl)).absthe c = some v.absthe ∧
      (runLoop compute (comboList nm nt nl)).divg c = some v.divg ∧
      (runLoop compute (comboList nm nt nl)).vort c = some v.vort) ∧
    (∀ e, compute c = Except.error e →
      (runLoop compute (comboList nm nt nl)).eth c = none ∧
      (runLoop compute (comboList nm nt nl)).dtedx c = none ∧
      (runLoop compute (comboList nm nt nl)).dtedy c = none ∧
      (runLoop compute (comboList nm nt nl)).absthe c = none ∧
      (runLoop compute (comboList nm nt nl)).divg c = none ∧
      (runLoop compute (comboList nm nt nl)).vort c = none) := by
  refine ⟨fun x => ⟨rfl, rfl, rfl, rfl, rfl, rfl⟩, ?_, ?_⟩
  · intro v hv
    unfold runLoop
    exact ⟨foldl_proj_of_ok compute (fun o => o.eth) (fun s => s.eth) (fun _ _ _ => rfl) c v hv _ _ hc,
      foldl_proj_of_ok compute (fun o => o.dtedx) (fun s => s.dtedx) (fun _ _ _ => rfl) c v hv _ _ hc,
      foldl_proj_of_ok compute (fun o => o.dtedy) (fun s => s.dtedy) (fun _ _ _ => rfl) c v hv _ _ hc,
      foldl_proj_of_ok compute (fun o => o.absthe) (fun s => s.absthe) (fun _ _ _ => rfl) c v hv _ _ hc,
      foldl_proj_of_ok compute (fun o => o.divg) (fun s => s.divg) (fun _ _ _ => rfl) c v hv _ _ hc,
      foldl_proj_of_ok compute (fun o => o.vort) (fun s => s.vort) (fun _ _ _ => rfl) c v hv _ _ hc⟩
  · intro e he
    unfold runLoop
    exact ⟨foldl_proj_of_error compute (fun o => o.eth) (fun s => s.eth) (fun _ _ _ => rfl) c e he _ _,
      foldl_proj_of_error compute (fun o => o.dtedx) (fun s => s.dtedx) (fun _ _ _ => rfl) c e he _ _,
      foldl_proj_of_error compute (fun o => o.dtedy) (fun s => s.dtedy) (fun _ _ _ => rfl) c e he _ _,
      foldl_proj_of_error compute (fun o => o.absthe) (fun s => s.absthe) (fun _ _ _ => rfl) c e he _ _,
      foldl_proj_of_error compute (fun o => o.divg) (fun s => s.divg) (fun _ _ _ => rfl) c e he _ _,
      foldl_proj_of_error compute (fun o => o.vort) (fun s => s.vort) (fun _ _ _ => rfl) c e he _ _⟩

/-- Witness for C1: a concrete 1 × 1 × 1 run with an always-succeeding
per-slice computation fills the `(0,0,0)` slot of the arrays. -/
theorem c1_sentinel_atomicity_witness :
    ((0, 0, 0) ∈ comboList 1 1 1) ∧
    (runLoop demoCompute (comboList 1 1 1)).eth (0, 0, 0) = some 1 ∧
    (runLoop demoCompute (comboList 1 1 1)).dtedx (0, 0, 0) = some 2 ∧
    (runLoop demoCompute (comboList 1 1 1)).vort (0, 0, 0) = some 6 := by
  have h := c1_sentinel_atomicity (α := Rat) (E := String) 1 1 1 demoCompute (0, 0, 0) (by decide)
  have h2 := h.2.1 ⟨1, 2, 3, 4, 5, 6⟩ rfl
  exact ⟨by decide, h2.1, h2.2.1, h2.2.2.2.2.2⟩

end ThetaE

namespace ThetaE

theorem effectiveLevels_eq_nil (req avail : List Int) (h : ∀ l ∈ req, l ∉ avail) :
    effectiveLevels req avail = [] := by
  rw [effectiveLevels_eq_filter, List.filter_eq_nil_iff]
  intro a ha
  simpa using h a ha

theorem flatMap_nil_fun {β γ : Type} (l : List β) :
    (l.flatMap (fun _ => ([] : List γ))) = [] := by
  induction l with
  | nil => rfl
  | cons a t ih => simp [ih]

theorem comboList_zero_levels (nm nt : Nat) : comboList nm nt 0 = [] := by
  unfold comboList
  simp [List.range_zero, flatMap_nil_fun]

/-- C9: if serializing the assembled output dataset raises, the error is
logged to the console and the same exception is re-raised (the run's
outcome is an error exactly when the serializer errored — no catch
suppresses a serialization failure), terminating the run with a non-zero
exit status. -/
theorem c9_serialization_reraise (nm nt : Nat) (req avail : List Int)
    (compute : Combo → Except String (SliceVals Rat))
    (ser : OutDataset Rat → Except String Unit) (e : String) :
    ((processRun nm nt req avail compute ser).2 = Except.error e ↔
      ser (mkDataset nm nt req avail compute) = Except.error e) ∧
    (ser (mkDataset nm nt req avail compute) = Except.error e →
      (processRun nm nt req avail compute ser).1 = ["Error writing output: " ++ e] ∧
      exitCode (processRun nm nt req avail compute ser).2 = 1) := by
  cases hser : ser (mkDataset nm nt req avail compute) with
  | ok u =>
    constructor
    · simp [processRun, hser]
    · intro h
      exact Except.noConfusion h
  | error e2 =>
    constructor
    · simp [processRun, hser]
    · intro h
      have he : e2 = e := by injection h
      subst he
      constructor
      · simp [processRun, hser]
      · simp [processRun, hser, exitCode]

/-- Witness for C9: a concrete run whose serializer fails with
`disk full` logs the failure, re-raises it, and exits non-zero. -/
theorem c9_serialization_reraise_witness :
    serFail (mkDataset 1 1 [850] [850] demoCompute) = Except.error ("disk full") ∧
    (processRun 1 1 [850] [850] demoCompute serFail).2 = Except.error ("disk full") ∧
    (processRun 1 1 [850] [850] demoCompute serFail).1
      = ["Error writing output: " ++ "disk full"] ∧
    exitCode (processRun 1 1 [850] [850] demoCompute serFail).2 = 1 := by
  have h := c9_serialization_reraise 1 1 [850] [850] demoCompute serFail ("disk full")
  have h2 := h.2 rfl
  exact ⟨rfl, h.1.mpr rfl, h2.1, h2.2⟩

/-- C10: when none of the requested levels is present, the function does
not raise: the effective level list is empty, the triple loop runs zero
iterations, and the run still completes with an output dataset whose
`level` coordinate is empty and whose variables have a size-zero level
dimension. -/
theorem c10_no_levels_ok (nm nt : Nat) (req avail : List Int)
    (compute : Combo → Except String (SliceVals Rat))
    (ser : OutDataset Rat → Except String Unit)
    (hnone : ∀ l ∈ req, l ∉ avail)
    (hser : ser (mkDataset nm nt req avail compute) = Except.ok ()) :
    effectiveLevels req avail = [] ∧
    comboList nm nt (effectiveLevels req avail).length = [] ∧
    totalIterations nm nt req avail = 0 ∧
    (processRun nm nt req avail compute ser).2
      = Except.ok (mkDataset nm nt req avail compute) ∧
    (mkDataset nm nt req avail compute).levelCoord = [] ∧
    (mkDataset nm nt req avail compute).levelDim = 0 := by
  have h0 := effectiveLevels_eq_nil req avail hnone
  refine ⟨h0, ?_, ?_, ?_, ?_, ?_⟩
  · rw [h0]
    exact comboList_zero_levels nm nt
  · unfold totalIterations
    rw [h0]
    simp
  · simp [processRun, hser]
  · show effectiveLevels req avail = []
    exact h0
  · show (effectiveLevels req avail).length = 0
    rw [h0]
    rfl

/-- Witness for C10: requesting only level 825 against an input holding
only level 850 yields an empty level list, zero loop iterations, and a
successful run with an empty `level` coordinate. -/
theorem c10_no_levels_ok_witness :
    (∀ l ∈ ([825] : List Int), l ∉ ([850] : List Int)) ∧
    serOk (mkDataset 1 1 [825] [850] demoCompute) = Except.ok () ∧
    effectiveLevels [825] [850] = [] ∧
    totalIterations 1 1 [825] [850] = 0 ∧
    (processRun 1 1 [825] [850] demoCompute serOk).2
      = Except.ok (mkDataset 1 1 [825] [850] demoCompute) ∧
    (mkDataset 1 1 [825] [850] demoCompute).levelCoord = [] ∧
    (mkDataset 1 1 [825] [850] demoCompute).levelDim = 0 := by
  have h := c10_no_levels_ok 1 1 [825] [850] demoCompute serOk (by decide) rfl
  exact ⟨by decide, rfl, h.1, h.2.2.1, h.2.2.2.1, h.2.2.2.2.1, h.2.2.2.2.2⟩

end ThetaE

namespace Duration

theorem distinctSorted_perm_dedup (xs : List Rat) :
    (distinctSorted xs).Perm xs.dedup :=
  List.perm_insertionSort _ xs.dedup

theorem counts_sum_core (xs : List Rat) :
    ((distinctSorted xs).map (fun v => xs.count v)).sum = xs.length := by
  have hperm : ((distinctSorted xs).map (fun v => xs.count v)).Perm
      (xs.dedup.map (fun v => xs.count v)) :=
    (distinctSorted_perm_dedup xs).map _
  rw [hperm.sum_eq]
  exact List.sum_map_count_dedup_eq_length xs

theorem counts_sum (xs : List Rat) :
    ((durationCounts xs).map Prod.snd).sum = xs.length := by
  unfold durationCounts
  rw [List.map_map]
  exact counts_sum_core xs

theorem percentages_sum (xs : List Rat) (h : xs ≠ []) :
    (durationPercentages xs).sum = 100 := by
  unfold durationPercentages durationCounts
  rw [List.map_map]
  have h1 : ((fun p : Rat × Nat => ((p.2 : Rat) / (xs.length : Rat)) * 100) ∘
      fun v => (v, xs.count v))
      = fun v => ((xs.count v : Rat)) * (100 / (xs.length : Rat)) := by
    funext v
    simp only [Function.comp]
    ring
  rw [h1, List.sum_map_mul_right]
  have h2 : ((distinctSorted xs).map (fun v => ((xs.count v : Nat) : Rat))).sum
      = ((xs.length : Nat) : Rat) := by
    rw [show (fun v => ((xs.count v : Nat) : Rat))
        = (fun n : Nat => (n : Rat)) ∘ (fun v => xs.count v) from rfl]
    rw [← List.map_map, ← Nat.cast_list_sum, counts_sum_core xs]
  rw [h2]
  have hlen0 : xs.length ≠ 0 := by
    simpa [List.length_eq_zero] using h
  have hlen : ((xs.length : Nat) : Rat) ≠ 0 := Nat.cast_ne_zero.mpr hlen0
  field_simp

/-- C4: the per-value counts of the duration frequency table (grouped by
exact equality) sum to the total row count, the reported percentages sum
to exactly 100, and for durations `[10, 10, 20, 40]` the table is
`10 → 2 cases (50%), 20 → 1 case (25%), 40 → 1 case (25%)`. -/
theorem c4_frequency_table (xs : List Rat) (hne : xs ≠ []) :
    ((durationCounts xs).map Prod.snd).sum = xs.length ∧
    (durationPercentages xs).sum = 100 ∧
    durationCounts [10, 10, 20, 40] = [(10, 2), (20, 1), (40, 1)] ∧
    durationPercentages [10, 10, 20, 40] = [50, 25, 25] := by
  refine ⟨counts_sum xs, percentages_sum xs hne, by decide, ?_⟩
  unfold durationPercentages
  rw [show durationCounts [10, 10, 20, 40] = [(10, 2), (20, 1), (40, 1)] from by decide]
  norm_num

/-- Witness for C4: the frequency table of the concrete dataset
`[10, 10, 20, 40]`. -/
theorem c4_frequency_table_witness :
    ([10, 10, 20, 40] : List Rat) ≠ [] ∧
    (((durationCounts [10, 10, 20, 40]).map Prod.snd).sum
        = ([10, 10, 20, 40] : List Rat).length ∧
      (durationPercentages [10, 10, 20, 40]).sum = 100 ∧
      durationCounts [10, 10, 20, 40] = [(10, 2), (20, 1), (40, 1)] ∧
      durationPercentages [10, 10, 20, 40] = [50, 25, 25]) :=
  ⟨by decide, c4_frequency_table [10, 10, 20, 40] (by decide)⟩

theorem sum_map_neg_real (xs : List ℝ) : (xs.map (fun x => -x)).sum = -xs.sum := by
  induction xs with
  | nil => simp
  | cons a t ih =>
    simp only [List.map_cons, List.sum_cons, ih]
    ring

theorem mean_map_neg (xs : List ℝ) : mean (xs.map (fun x => -x)) = -(mean xs) := by
  unfold mean
  rw [sum_map_neg_real, List.length_map]
  ring

theorem sq_dev_sum_neg (xs : List ℝ) :
    ((xs.map (fun x => -x)).map (fun x => (x - mean (xs.map (fun y => -y))) ^ 2)).sum
      = (xs.map (fun x => (x - mean xs) ^ 2)).sum := by
  rw [List.map_map]
  have hfun : ((fun x => (x - mean (xs.map (fun y => -y))) ^ 2) ∘ fun x => -x)
      = fun x => (x - mean xs) ^ 2 := by
    funext a
    simp only [Function.comp, mean_map_neg]
    ring
  rw [hfun]

theorem sampleVar_map_neg (xs : List ℝ) :
    sampleVar (xs.map (fun x => -x)) = sampleVar xs := by
  unfold sampleVar
  rw [List.length_map, sq_dev_sum_neg]

/-- C7: the one-sample t-test against the fixed reference 42 is symmetric
under negation: on the negated sample against reference −42 the statistic
has the opposite sign and the two-sided p-value (degrees of freedom
`n − 1`) is unchanged. -/
theorem c7_ttest_negation_symmetry (xs : List ℝ) :
    tStat (xs.map (fun x => -x)) (-(42 : ℝ)) = -(tStat xs 42) ∧
    tPValue ((xs.length : ℝ) - 1) (tStat (xs.map (fun x => -x)) (-(42 : ℝ)))
      = tPValue ((xs.length : ℝ) - 1) (tStat xs 42) := by
  have hstat : tStat (xs.map (fun x => -x)) (-(42 : ℝ)) = -(tStat xs 42) := by
    unfold tStat
    rw [mean_map_neg, sampleVar_map_neg, List.length_map]
    ring
  refine ⟨hstat, ?_⟩
  rw [hstat]
  unfold tPValue
  rw [abs_neg]

/-- C8: the scatter points are generated from the fixed seed 42, so two
runs (with different ambient entropy) on the same dataset produce identical
jittered x-positions — the first `n` draws of the seeded generator — and
each point's y-position is the exact `duration_hours` value of its row. -/
theorem c8_jitter_reproducible (rng : Nat → Nat → List Rat)
    (hlen : ∀ s n, (rng s n).length = n) (e1 e2 : Nat) (ds : List Rat) :
    runScatter rng e1 ds = runScatter rng e2 ds ∧
    (runScatter rng e1 ds).map Prod.snd = ds ∧
    (runScatter rng e1 ds).map Prod.fst = rng 42 ds.length := by
  refine ⟨rfl, ?_, ?_⟩
  · unfold runScatter scatterPoints
    exact List.map_snd_zip _ _ (le_of_eq (hlen 42 ds.length).symm)
  · unfold runScatter scatterPoints
    exact List.map_fst_zip _ _ (le_of_eq (hlen 42 ds.length))

/-- Witness for C8: two runs of the scatter section on the dataset
`[10, 10, 20, 40]` with a concrete deterministic generator coincide. -/
theorem c8_jitter_reproducible_witness :
    (∀ s n, (demoRng s n).length = n) ∧
    runScatter demoRng 0 [10, 10, 20, 40] = runScatter demoRng 1 [10, 10, 20, 40] ∧
    (runScatter demoRng 0 [10, 10, 20, 40]).map Prod.snd = [10, 10, 20, 40] ∧
    (runScatter demoRng 0 [10, 10, 20, 40]).map Prod.fst
      = demoRng 42 ([10, 10, 20, 40] : List Rat).length := by
  have hlen : ∀ s n, (demoRng s n).length = n := by
    intro s n
    simp [demoRng]
  have h := c8_jitter_reproducible demoRng hlen 0 1 [10, 10, 20, 40]
  exact ⟨hlen, h.1, h.2.1, h.2.2⟩

end Duration

namespace Fronto

theorem derivP_neg {α : Type} [Field α] (n : Nat) (f : Nat → α) (d : α) (i : Nat) :
    derivP n (fun k => -(f k)) d i = -(derivP n f d i) := by
  unfold derivP
  split_ifs <;> ring

theorem xDeriv_gneg {α : Type} [Field α] (g : Grid α) (dx : α) (i j : Nat) :
    (xDeriv (gneg g) dx).val i j = -((xDeriv g dx).val i j) := by
  show derivP g.nx (fun k => -(g.val i k)) dx j = -(derivP g.nx (fun k => g.val i k) dx j)
  exact derivP_neg g.nx (fun k => g.val i k) dx j

theorem yDeriv_gneg {α : Type} [Field α] (g : Grid α) (dy : α) (i j : Nat) :
    (yDeriv (gneg g) dy).val i j = -((yDeriv g dy).val i j) := by
  show derivP g.ny (fun k => -(g.val k j)) dy i = -(derivP g.ny (fun k => g.val k j) dy i)
  exact derivP_neg g.ny (fun k => g.val k j) dy i

/-- C6: for any wind components `u`, `v` on the same grid with spacings
`dx`, `dy`, negating both components exactly negates the computed
divergence field and exactly negates the computed vorticity field. -/
theorem c6_divergence_vorticity_antisymmetry (u v : Grid Rat) (dx dy : Rat) :
    divergence (gneg u) (gneg v) dx dy = gneg (divergence u v dx dy) ∧
    vorticity (gneg u) (gneg v) dx dy = gneg (vorticity u v dx dy) := by
  constructor
  · show (Grid.mk u.ny u.nx fun i j =>
        (xDeriv (gneg u) dx).val i j + (yDeriv (gneg v) dy).val i j)
      = Grid.mk u.ny u.nx fun i j =>
        -((xDeriv u dx).val i j + (yDeriv v dy).val i j)
    congr 1
    funext i j
    rw [xDeriv_gneg, yDeriv_gneg]
    ring
  · show (Grid.mk u.ny u.nx fun i j =>
        (xDeriv (gneg v) dx).val i j - (yDeriv (gneg u) dy).val i j)
      = Grid.mk u.ny u.nx fun i j =>
        -((xDeriv v dx).val i j - (yDeriv u dy).val i j)
    congr 1
    funext i j
    rw [xDeriv_gneg, yDeriv_gneg]
    ring

theorem maskSel_magnitudeSeries (field : List (Int × Grid ℝ)) (dx dy : ℝ) (t : Int) :
    maskSel (magnitudeSeries field dx dy) t
      = (maskSel field t).map (fun g => gradientMagnitude g dx dy) := by
  unfold maskSel magnitudeSeries
  rw [List.filter_map, List.map_map, List.map_map]
  rfl

theorem maskSel_eq_nil {β : Type} (field : List (Int × β)) (t : Int)
    (h : t ∉ field.map Prod.fst) : maskSel field t = [] := by
  unfold maskSel
  rw [List.map_eq_nil_iff, List.filter_eq_nil_iff]
  intro p hp
  simp only [decide_eq_true_eq]
  intro heq
  exact h (heq ▸ List.mem_map_of_mem Prod.fst hp)

theorem selExact_err {β : Type} (field : List (Int × β)) (t : Int)
    (h : t ∉ field.map Prod.fst) : selExact field t = Except.error () := by
  unfold selExact
  have hf : field.find? (fun p => decide (p.1 = t)) = none := by
    rw [List.find?_eq_none]
    intro p hp
    simp only [decide_eq_true_eq]
    intro heq
    exact h (heq ▸ List.mem_map_of_mem Prod.fst hp)
  rw [hf]

/-- C5: when the time coordinate holds exactly one slice at `target + 1 h`
(grid `A`) and exactly one at `target − 1 h` (grid `B`), the
gradient-tendency diagnostic is the magnitude of the spatial gradient of
potential temperature at `target + 1 h` minus that magnitude at
`target − 1 h`, divided by the 7200-second interval between those times. -/
theorem c5_gradient_tendency (field : List (Int × Grid ℝ)) (target : Int)
    (dx dy : ℝ) (A B : Grid ℝ)
    (hA : maskSel field (target + 3600) = [A])
    (hB : maskSel field (target - 3600) = [B]) :
    gradientTendency field target dx dy
      = [gdivC (gsub (gradientMagnitude A dx dy) (gradientMagnitude B dx dy)) (7200 : ℝ)] ∧
    timeInterval target = 7200 := by
  have hint : timeInterval target = 7200 := by
    unfold timeInterval
    ring
  refine ⟨?_, hint⟩
  unfold gradientTendency gradientChangeList
  rw [maskSel_magnitudeSeries, maskSel_magnitudeSeries, hA, hB]
  simp only [List.map_cons, List.map_nil, List.zipWith_cons_cons, List.zipWith_nil_right]
  rw [hint]
  push_cast
  rfl

/-- Witness for C5: a concrete two-slice series with times `−3600` and
`3600` around target time `0`. -/
theorem c5_gradient_tendency_witness :
    maskSel fieldC5 ((0 : Int) + 3600) = [gA] ∧
    maskSel fieldC5 ((0 : Int) - 3600) = [gB] ∧
    (gradientTendency fieldC5 0 1 1
        = [gdivC (gsub (gradientMagnitude gA 1 1) (gradientMagnitude gB 1 1)) (7200 : ℝ)] ∧
      timeInterval 0 = 7200) := by
  have hA : maskSel fieldC5 ((0 : Int) + 3600) = [gA] := rfl
  have hB : maskSel fieldC5 ((0 : Int) - 3600) = [gB] := rfl
  exact ⟨hA, hB, c5_gradient_tendency fieldC5 0 1 1 gA gB hA hB⟩

/-- Counterexample to C3 as stated: in the series `fieldC3` the target
time `0` and the hour-before time `−3600` are present but the hour-after
time `3600` is absent, yet time selection does not fail with a lookup
error — the boolean-mask selection yields an empty slice and the run fails
later, at the zero-size statistics reduction. -/
theorem c3_counterexample :
    ((3600 : Int) ∉ fieldC3.map Prod.fst) ∧
    scriptRun fieldC3 0 1 1 = Except.error RunError.emptyArrayError ∧
    scriptRun fieldC3 0 1 1 ≠ Except.error RunError.lookupError := by
  have hrun : scriptRun fieldC3 0 1 1 = Except.error RunError.emptyArrayError := rfl
  refine ⟨by decide, hrun, ?_⟩
  intro h
  rw [hrun] at h
  have hctor : RunError.emptyArrayError = RunError.lookupError := by injection h
  exact RunError.noConfusion hctor

/-- C3 (amended): if the exact target time is absent from the time
coordinate, time selection fails with a lookup error before any plotting
occurs; and whenever the target or either ±1-hour time is absent, the run
never reaches plotting, so no image file is written — but an absent
±1-hour time alone does not raise a lookup error (the mask selection just
returns an empty slice). -/
theorem c3_amended_lookup (field : List (Int × Grid ℝ)) (target : Int) (dx dy : ℝ) :
    (target ∉ field.map Prod.fst →
      scriptRun field target dx dy = Except.error RunError.lookupError) ∧
    ((target ∉ field.map Prod.fst ∨ target - 3600 ∉ field.map Prod.fst ∨
        target + 3600 ∉ field.map Prod.fst) →
      imageWritten field target dx dy = false) := by
  have hlook : target ∉ field.map Prod.fst →
      scriptRun field target dx dy = Except.error RunError.lookupError := by
    intro h
    unfold scriptRun
    rw [selExact_err field target h]
  refine ⟨hlook, ?_⟩
  intro h
  unfold imageWritten
  rcases h with h | h | h
  · rw [hlook h]
    rfl
  · have htend : gradientTendency field target dx dy = [] := by
      unfold gradientTendency gradientChangeList
      rw [maskSel_magnitudeSeries, maskSel_magnitudeSeries,
        maskSel_eq_nil field (target - 3600) h]
      simp
    unfold scriptRun
    rw [htend]
    cases hsel : selExact field target with
    | error u => rfl
    | ok g => rfl
  · have htend : gradientTendency field target dx dy = [] := by
      unfold gradientTendency gradientChangeList
      rw [maskSel_magnitudeSeries, maskSel_magnitudeSeries,
        maskSel_eq_nil field (target + 3600) h]
      simp
    unfold scriptRun
    rw [htend]
    cases hsel : selExact field target with
    | error u => rfl
    | ok g => rfl

/-- Witness for the amended C3: requesting target time `7200` against a
series holding only time `0` fails with the lookup error and writes no
image. -/
theorem c3_amended_lookup_witness :
    ((7200 : Int) ∉ fieldC3W.map Prod.fst) ∧
    scriptRun fieldC3W 7200 1 1 = Except.error RunError.lookupError ∧
    imageWritten fieldC3W 7200 1 1 = false := by
  have h := c3_amended_lookup fieldC3W 7200 1 1
  have hm : (7200 : Int) ∉ fieldC3W.map Prod.fst := by decide
  exact ⟨hm, h.1 hm, h.2 (Or.inl hm)⟩

end Fronto
